import Mathlib

/-!
Shallow embedding of the semantic-resolution core of the Raven compiler front
end: the implementation-call resolver and virtual-call dispatcher
(`check_impl_call.rs`), the function verifier (`check_function.rs`) and the
`TypesChecker` entry points (`output.rs`).

Pure data is translated directly from the Rust sources.  Calls these files
make into the `syntax` crate (which is outside the verified sources) appear as
explicit oracle fields or parameters, and the concurrency of the original
(the polling of `finished_impls()`, the growth of the implementation set
between retries) is represented by observed schedules: a list of successive
liveness-signal readings and an indexed family of `try_get_impl` outcomes.
-/

namespace Raven

/-- Source location attached to effects and errors (models
`data::tokens::Span`; the real structure carries file and byte offsets, which
never influence the checker's decisions, so a single identifier suffices). -/
structure Span where
  id : Nat
deriving DecidableEq, Repr

/-- A diagnostic error carrying the originating span (models `ParsingError`). -/
structure ParsingError where
  span : Span
  message : String
deriving DecidableEq, Repr

/-- Models `Span::make_error` and `CodeErrorToken::make_error`: build a
diagnostic at this location. -/
def Span.make_error (s : Span) (msg : String) : ParsingError :=
  { span := s, message := msg }

/-- Modelled from the spec: the `Modifier` bit-flag enum lives in the `syntax`
crate, outside the verified sources; only the identity of the `Internal`,
`Extern` and `Trait` bits matters to the checker, so the flags are assigned
distinct powers of two.  `ExternM` models `Modifier::Extern`. -/
inductive Modifier where
  | Public
  | Protected
  | ExternM
  | Internal
  | Operation
  | Trait
deriving DecidableEq, Repr

/-- Bit value of a modifier flag. -/
def Modifier.flag : Modifier → Nat
  | .Public => 1
  | .Protected => 2
  | .ExternM => 4
  | .Internal => 8
  | .Operation => 16
  | .Trait => 32

/-- Modelled from the spec: `is_modifier` of the `syntax` crate tests one flag
bit of a modifier byte. -/
def is_modifier (modifiers : Nat) (m : Modifier) : Bool :=
  modifiers &&& m.flag != 0

/-- Function identity (models `FunctionData`: the attribute list is dropped,
the modifier byte and the fully qualified name are kept; per the data model two
declarations are equal iff their names match). -/
structure FunctionData where
  modifiers : Nat
  name : String
deriving DecidableEq, Repr

/-- Struct identity and member-function table (models `StructData`). -/
structure StructData where
  modifiers : Nat
  name : String
  functions : List FunctionData
deriving DecidableEq, Repr

/-- Finalized type reference (models `FinalizedTypes`): a concrete struct, a
reference wrapper, or a still-unresolved generic parameter with its bounds. -/
inductive FinalizedTypes where
  | Struct (data : StructData)
  | Reference (inner : FinalizedTypes)
  | Generic (name : String) (bounds : List FinalizedTypes)

/-- Models `FinalizedTypes::inner_struct`, which reaches the underlying struct
data through reference wrappers (the Rust version has no case for generics;
the checker only calls it under the `of_type_sync` guard, so generics map to
an empty stand-in here). -/
def FinalizedTypes.inner_struct : FinalizedTypes → StructData
  | .Struct s => s
  | .Reference inner => inner.inner_struct
  | .Generic _ _ => { modifiers := 0, name := "", functions := [] }

/-- Models the `matches!(return_type, FinalizedTypes::Generic(_, _))` test of
check_impl_call.rs line 133. -/
def FinalizedTypes.is_generic : FinalizedTypes → Bool
  | .Generic _ _ => true
  | _ => false

/-- Modelled from the spec: the `Display` rendering of a finalized type used
inside error messages (implemented in the `syntax` crate). -/
def FinalizedTypes.display : FinalizedTypes → String
  | .Struct s => s.name
  | .Reference inner => "&" ++ inner.display
  | .Generic name _ => name

/-- The void/unit struct used as the search type of static trait calls
(models the `VOID` static of the `syntax` crate). -/
def VOID : FinalizedTypes :=
  .Struct { modifiers := 8, name := "void", functions := [] }

/-- A finalized argument or field (models `FinalizedMemberField`, with the
attribute list dropped). -/
structure FinalizedMemberField where
  modifiers : Nat
  name : String
  field_type : FinalizedTypes

/-- Signature-only finalized function (models `CodelessFinalizedFunction`):
generic parameters with their bounds, finalized arguments, optional return
type, identity and the error token of the declaration. -/
structure CodelessFinalizedFunction where
  generics : List (String × List FinalizedTypes)
  arguments : List FinalizedMemberField
  return_type : Option FinalizedTypes
  data : FunctionData
  token : Span

mutual
/-- A finalized effect with its span (models `FinalizedEffects`; the Rust
constructor `FinalizedEffects::new(span, types)` is the `new` constructor). -/
inductive FinalizedEffects where
  | new (span : Span) (types : FinalizedEffectType)

/-- The effect kinds consulted or produced by the implementation resolver
(models the corresponding `FinalizedEffectType` variants).  `evaluated` stands
for any other already-verified effect, carrying an identifier and the
finalized static type that `get_return` computes for it. -/
inductive FinalizedEffectType where
  | NOP
  | evaluated (id : Nat) (ret : FinalizedTypes)
  | VirtualCall (slot : Nat) (function : CodelessFinalizedFunction)
      (args : List FinalizedEffects)
  | GenericVirtualCall (slot : Nat) (target : FunctionData)
      (function : CodelessFinalizedFunction) (args : List FinalizedEffects)
end

/-- The `types` field of a finalized effect. -/
def FinalizedEffects.types : FinalizedEffects → FinalizedEffectType
  | .new _ t => t

/-- Models `FinalizedEffects::NOP()`. -/
def FinalizedEffects.NOP : FinalizedEffects :=
  .new { id := 0 } FinalizedEffectType.NOP

/-- Modelled from the spec: `get_return` (crate root of the checker, outside
the verified sources) yields the finalized static type an effect produces. -/
def get_return : FinalizedEffectType → FinalizedTypes
  | .NOP => VOID
  | .evaluated _ ret => ret
  | .VirtualCall _ f _ => f.return_type.getD VOID
  | .GenericVirtualCall _ _ f _ => f.return_type.getD VOID

/-- Expression kinds (models `ExpressionType`). -/
inductive ExpressionType where
  | Break
  | Return (token : Span)
  | Line
deriving DecidableEq, Repr

/-- A finalized expression: a kind plus its effect (models
`FinalizedExpression::new(expression_type, effect)`). -/
structure FinalizedExpression where
  expression_type : ExpressionType
  effect : FinalizedEffects

/-- A checked code body (models `FinalizedCodeBody::new(expressions, name,
returns)`): the expressions, the body's label, and whether every control path
returns. -/
structure FinalizedCodeBody where
  expressions : List FinalizedExpression
  name : String
  returns : Bool

/-- A fully finalized function (models `FinalizedFunction`). -/
structure FinalizedFunction where
  generics : List (String × List FinalizedTypes)
  fields : List FinalizedMemberField
  code : FinalizedCodeBody
  return_type : Option FinalizedTypes
  data : FunctionData
  token : Span

/-- Models `CodelessFinalizedFunction::add_code` of the `syntax` crate: attach
a checked body to a signature-only function, keeping the signature parts. -/
def CodelessFinalizedFunction.add_code (c : CodelessFinalizedFunction)
    (code : FinalizedCodeBody) : FinalizedFunction :=
  { generics := c.generics, fields := c.arguments, code := code,
    return_type := c.return_type, data := c.data, token := c.token }

/-- Association-list lookup keyed by declaration name. -/
def lookupEntry {α : Type} : List (String × α) → String → Option α
  | [], _ => none
  | (k2, v) :: rest, k => if k2 = k then some v else lookupEntry rest k

/-- Removes every entry under a key (models `HashMap::remove`). -/
def eraseKey {α : Type} : List (String × α) → String → List (String × α)
  | [], _ => []
  | (k2, v) :: rest, k =>
    if k2 = k then eraseKey rest k else (k2, v) :: eraseKey rest k

/-- Inserts an entry, replacing any previous one (models `HashMap::insert`). -/
def insertEntry {α : Type} (m : List (String × α)) (k : String) (v : α) :
    List (String × α) :=
  (k, v) :: eraseKey m k

/-- The function table of the Declaration Store (models `syntax.functions`):
the `data` map from names to registered signatures and the `wakers` table of
pending resumption callbacks (waker identifiers), both keyed by name. -/
structure FunctionStore where
  data : List (String × CodelessFinalizedFunction)
  wakers : List (String × List Nat)

/-- The wakers pending under a name. -/
def FunctionStore.pendingWakers (st : FunctionStore) (name : String) :
    List Nat :=
  (lookupEntry st.wakers name).getD []

/-- Observable events of `verify_function_code`, in program order. -/
inductive FnEvent where
  | wokeWaker (id : Nat)
  | insertedFunction (name : String)
  | startedBodyCheck
deriving DecidableEq, Repr

/-- The return-path analysis of `verify_function_code` (check_function.rs,
lines 70-82), applied to the outcome of `verify_code` (check_code.rs is
outside the verified sources, so that outcome is an input here): a body that
does not return on all paths gets an implicit empty return appended when no
return type is declared, is exactly one returned error when one is declared,
and is accepted unchanged when the function carries the `Trait` modifier. -/
def check_body_outcome (c : CodelessFinalizedFunction)
    (bodyResult : Except ParsingError FinalizedCodeBody) :
    Except ParsingError FinalizedFunction :=
  match bodyResult with
  | .error e => .error e
  | .ok code =>
    if code.returns = false then
      if c.return_type.isNone then
        .ok (c.add_code { code with
          expressions := code.expressions ++
            [{ expression_type := ExpressionType.Return { id := 0 },
               effect := FinalizedEffects.NOP }] })
      else if is_modifier c.data.modifiers Modifier.Trait = false then
        .error (c.token.make_error ("Function " ++ c.data.name ++
          " returns void instead of a " ++
          ((c.return_type.map FinalizedTypes.display).getD "") ++ "!"))
      else .ok (c.add_code code)
    else .ok (c.add_code code)

/-- Models `verify_function_code` (check_function.rs, lines 48-83).  The store
update of lines 52-61 — wake every waker pending under the function's name and
insert the codeless signature into the function map — happens before anything
else; internal and extern functions then skip body checking and get an empty
body that counts as returning; every other function goes through the
return-path analysis of its body result.  The event list records the order in
which these steps happen. -/
def verify_function_code (st : FunctionStore) (c : CodelessFinalizedFunction)
    (bodyResult : Except ParsingError FinalizedCodeBody) :
    Except ParsingError FinalizedFunction × FunctionStore × List FnEvent :=
  let st1 : FunctionStore :=
    { data := insertEntry st.data c.data.name c,
      wakers := eraseKey st.wakers c.data.name }
  let evs0 := (st.pendingWakers c.data.name).map FnEvent.wokeWaker ++
    [FnEvent.insertedFunction c.data.name]
  if is_modifier c.data.modifiers Modifier.Internal ||
      is_modifier c.data.modifiers Modifier.ExternM then
    (.ok (c.add_code { expressions := [], name := "", returns := true }),
     st1, evs0)
  else
    (check_body_outcome c bodyResult, st1, evs0 ++ [FnEvent.startedBodyCheck])

/-- The slice of the shared `Syntax` state the `TypesChecker` entry points
touch: the process-wide ordered error list. -/
structure SyntaxData where
  errors : List ParsingError

/-- An unchecked code body (models `CodeBody`; its contents are opaque to
output.rs, so they are represented by identifiers). -/
structure CodeBody where
  expressions : List Nat
  name : String
deriving DecidableEq, Repr

/-- A finalized struct (models `FinalizedStruct`). -/
structure FinalizedStruct where
  generics : List (String × List FinalizedTypes)
  fields : List FinalizedMemberField
  data : StructData

/-- Models `FunctionData::new(Vec::default(), 0, String::default())`: the
declaration data of every placeholder, with the empty string as its name. -/
def empty_function_data : FunctionData :=
  { modifiers := 0, name := "" }

/-- The placeholder signature substituted by `TypesChecker::verify_func`. -/
def placeholder_codeless : CodelessFinalizedFunction :=
  { generics := [], arguments := [], return_type := none,
    data := empty_function_data, token := { id := 0 } }

/-- Models `TypesChecker::verify_func` (output.rs, lines 43-64): the verifier
outcome (an oracle for `verify_function`) is returned on success; on error the
error is appended to the shared error list and a placeholder substituted, so
the error is never propagated to the caller. -/
def TypesChecker.verify_func (syn : SyntaxData)
    (outcome : Except ParsingError (CodelessFinalizedFunction × CodeBody)) :
    SyntaxData × (CodelessFinalizedFunction × CodeBody) :=
  match outcome with
  | .ok output => (syn, output)
  | .error e =>
    ({ errors := syn.errors ++ [e] },
     (placeholder_codeless, { expressions := [], name := "" }))

/-- Models `TypesChecker::verify_code` (output.rs, lines 66-87). -/
def TypesChecker.verify_code (syn : SyntaxData)
    (outcome : Except ParsingError FinalizedFunction) :
    SyntaxData × FinalizedFunction :=
  match outcome with
  | .ok output => (syn, output)
  | .error e =>
    ({ errors := syn.errors ++ [e] },
     { generics := [], fields := [],
       code := { expressions := [], name := "", returns := false },
       return_type := none, data := empty_function_data, token := { id := 0 } })

/-- Models `TypesChecker::verify_struct` (output.rs, lines 89-106). -/
def TypesChecker.verify_struct (syn : SyntaxData)
    (outcome : Except ParsingError FinalizedStruct) :
    SyntaxData × FinalizedStruct :=
  match outcome with
  | .ok output => (syn, output)
  | .error e =>
    ({ errors := syn.errors ++ [e] },
     { generics := [], fields := [],
       data := { modifiers := 0, name := "", functions := [] } })

/-- Splits a character list at every `::` separator, the qualified-name
separator (the behavior of `str::split("::")`). -/
def split_sep : List Char → List (List Char)
  | [] => [[]]
  | ':' :: ':' :: rest => [] :: split_sep rest
  | c :: rest =>
    match split_sep rest with
    | [] => [[c]]
    | seg :: segs => (c :: seg) :: segs

/-- The unqualified (suffix-after-separator) form of a fully qualified name:
models `name.split("::").last().unwrap()`. -/
def suffix_name (s : String) : String :=
  String.mk ((split_sep s.data).getLastD [])

/-- A degenericization job handed to the Task Coordinator: the Rust
`spawn(target.name, degeneric_header(target, found, ...))` of
check_impl_call.rs lines 147-158, keyed by the target's name. -/
structure SpawnedJob where
  name : String
  target : FunctionData
  base : FunctionData
deriving DecidableEq, Repr

/-- The observable outcome of a checker operation: a value, a returned
diagnostic, or an unwind of the whole task (`panic!` / out-of-bounds index). -/
inductive RunResult (α : Type) where
  | ok (val : α)
  | error (err : ParsingError)
  | panicked (msg : String)

/-- An unparsed return-type annotation (models `UnparsedType`; opaque to the
resolver, which only hands it to `Syntax::parse_type`). -/
structure UnparsedType where
  id : Nat
deriving DecidableEq, Repr

/-- The data used by the implementation checkers (models `ImplCheckerData`).
Pure data is carried directly; the calls `check_virtual_type` and
`try_get_impl` make into the `syntax` crate (outside the verified sources) are
oracle fields:
* `of_type_sync` — the boolean component of
  `finding_return_type.of_type_sync(data, None)`;
* `find_method` — the candidate list `finding_return_type.find_method(method)`
  (the struct-data component of each pair is dropped);
* `get_data` — `AsyncDataGetter`: the Resolution-Protocol fetch of the stored
  signature for a function, as of the moment the fetch completes;
* `parse_type` — `Syntax::parse_type` followed by `finalize`, applied to the
  explicit return annotation;
* `check_method` — `check_method` of check_method_call.rs applied to the
  fixed argument effects and variables of this call. -/
structure ImplCheckerData where
  data : FinalizedTypes
  returning : Option UnparsedType
  method : String
  finding_return_type : FinalizedTypes
  finalized_effects : List FinalizedEffects
  of_type_sync : Bool
  find_method : List FunctionData
  get_data : FunctionData → CodelessFinalizedFunction
  parse_type : UnparsedType → Except ParsingError FinalizedTypes
  check_method : CodelessFinalizedFunction → Option (FinalizedTypes × Span) →
    Except ParsingError FinalizedEffects

/-- The unqualified-suffix branch of `check_virtual_type` (check_impl_call.rs,
lines 122-164): resolve the concrete overload through `find_method` — more
than one candidate is an ambiguous-function error, none is an unknown-function
error — then either emit a `GenericVirtualCall` when the first (receiver)
effect's return type is still generic, or spawn a degenericization job for the
target and emit a `VirtualCall` to the data fetched for the target.  The
receiver access `finalized_effects[0]` unwinds when no effect exists, exactly
as the Rust indexing does. -/
def check_virtual_generic (d : ImplCheckerData) (token : Span) (i : Nat)
    (found : FunctionData) :
    RunResult (Option FinalizedEffects × List SpawnedJob) :=
  let target := d.find_method
  if 1 < target.length then .error (token.make_error "Ambiguous function!")
  else
    match target.getLast? with
    | none => .error (token.make_error "Unknown function!")
    | some tgt =>
      match d.finalized_effects.head? with
      | none => .panicked "index out of bounds"
      | some first =>
        if (get_return first.types).is_generic then
          .ok (some (.new token (.GenericVirtualCall i tgt (d.get_data found)
            d.finalized_effects)), [])
        else
          .ok (some (.new token (.VirtualCall i (d.get_data tgt)
            d.finalized_effects)),
            [{ name := tgt.name, target := tgt, base := found }])

/-- The scan of the trait's method list inside `check_virtual_type`
(check_impl_call.rs, lines 114-171), carrying the running slot index `i`: an
exact name match emits a `VirtualCall` at the current slot, a suffix match
enters the generic branch, and an exhausted list is an unknown-method error
exactly when a method name was requested. -/
def check_virtual_type_inner (d : ImplCheckerData) (token : Span) (i : Nat) :
    List FunctionData → RunResult (Option FinalizedEffects × List SpawnedJob)
  | [] =>
    if d.method = "" then .ok (none, [])
    else .error (token.make_error "Unknown method!")
  | found :: rest =>
    if found.name = d.method then
      .ok (some (.new token (.VirtualCall i (d.get_data found)
        d.finalized_effects)), [])
    else if suffix_name found.name = d.method then
      check_virtual_generic d token i found
    else
      check_virtual_type_inner d token (i + 1) rest

/-- Models `check_virtual_type` (check_impl_call.rs, lines 112-173): when the
search type statically matches the searched trait, scan the trait's method
list in declaration order; otherwise report that no virtual call applies.
The second component of a successful result lists the degenericization jobs
spawned on the Task Coordinator. -/
def check_virtual_type (d : ImplCheckerData) (token : Span) :
    RunResult (Option FinalizedEffects × List SpawnedJob) :=
  if d.of_type_sync then
    check_virtual_type_inner d token 0 d.data.inner_struct.functions
  else .ok (none, [])

/-- The re-finalization of the explicit return annotation inside
`try_get_impl` (check_impl_call.rs, lines 191-206): absent annotations yield
nothing, present ones are parsed and finalized, and a parse failure is
propagated. -/
def resolve_returning (d : ImplCheckerData) (span : Span) :
    Except ParsingError (Option (FinalizedTypes × Span)) :=
  match d.returning with
  | some inner => (d.parse_type inner).map (fun t => some (t, span))
  | none => .ok none

/-- Models `try_get_impl` (check_impl_call.rs, lines 176-225) applied to the
candidate list its `ImplWaiter` produced: candidates are tried in order, a
candidate is considered when its unqualified name matches the requested method
or the method name is empty, the first candidate accepted by `check_method`
wins, and a rejected candidate is discarded with its error dropped. -/
def try_get_impl (d : ImplCheckerData) (result : List FunctionData)
    (span : Span) : Except ParsingError (Option FinalizedEffects) :=
  match result with
  | [] => .ok none
  | temp :: rest =>
    if suffix_name temp.name = d.method ∨ d.method = "" then
      match resolve_returning d span with
      | .error e => .error e
      | .ok returning =>
        match d.check_method (d.get_data temp) returning with
        | .ok found => .ok (some found)
        | .error _ => try_get_impl d rest span
    else try_get_impl d rest span

/-- Specification-side description of implementation search, following the
words of spec §4.5: scanning in order, the first candidate whose unqualified
name matches the requested method (or any candidate when the method name is
empty) and whose effects type-check through `check_method` wins; a failing
candidate is skipped. -/
def first_match_spec (d : ImplCheckerData) (r : Option (FinalizedTypes × Span)) :
    List FunctionData → Option FinalizedEffects
  | [] => none
  | temp :: rest =>
    if suffix_name temp.name = d.method ∨ d.method = "" then
      match d.check_method (d.get_data temp) r with
      | .ok found => some found
      | .error _ => first_match_spec d r rest
    else first_match_spec d r rest

/-- How one run of the retry loop of `check_impl_call` ended: the loop exited
normally with the output found so far, or a `try_get_impl` error propagated;
`calls` counts the `try_get_impl` calls made. -/
inductive LoopExit where
  | exited (out : Option FinalizedEffects) (calls : Nat)
  | errored (err : ParsingError) (calls : Nat)

/-- The retry loop of `check_impl_call` (check_impl_call.rs, lines 75-79) over
an observed schedule: `tries k` is the outcome of the `k`-th `try_get_impl`
call (the known implementation set grows while other checking completes, hence
the index), and the list gives the successive readings of the
`finished_impls()` liveness signal.  An output found on the previous call
exits without reading the signal (as the short-circuit `&&` does), a true
signal reading exits the loop, an error propagates, and otherwise the loop
retries.  `none` means the observed schedule ended with the loop still
running. -/
def impl_search_loop
    (tries : Nat → Except ParsingError (Option FinalizedEffects)) :
    List Bool → Nat → Option FinalizedEffects → Option LoopExit
  | _, k, some v => some (.exited (some v) k)
  | [], _, none => none
  | s :: rest, k, none =>
    if s then some (.exited none k)
    else
      match tries k with
      | .error e => some (.errored e (k + 1))
      | .ok r => impl_search_loop tries rest (k + 1) r

/-- The implementation-search stage of `check_impl_call` (check_impl_call.rs,
lines 75-87): run the retry loop, perform one final `try_get_impl` when the
loop gave up without an output, and `panic!` when that last retry still finds
nothing (the constant `"Failed"` stands for the Rust message, which formats
the search type and the trait into `"Failed for .. and .."`).  The second
component counts the `try_get_impl` calls made. -/
def check_impl_call_search
    (tries : Nat → Except ParsingError (Option FinalizedEffects))
    (sigs : List Bool) : Option (RunResult FinalizedEffects × Nat) :=
  match impl_search_loop tries sigs 0 none with
  | none => none
  | some (.errored e k) => some (.error e, k)
  | some (.exited (some v) k) => some (.ok v, k)
  | some (.exited none k) =>
    match tries k with
    | .error e => some (.error e, k + 1)
    | .ok (some v) => some (.ok v, k + 1)
    | .ok none => some (.panicked "Failed", k + 1)

/-- Models `check_impl_call` (check_impl_call.rs, lines 51-91) after the trait
lookup of line 51 succeeded: the virtual-dispatch check runs first and its
result is returned when it applies; otherwise the liveness-bounded
implementation search runs over the observed schedule. -/
def check_impl_call (d : ImplCheckerData) (span : Span)
    (tries : Nat → Except ParsingError (Option FinalizedEffects))
    (sigs : List Bool) : Option (RunResult FinalizedEffects × Nat) :=
  match check_virtual_type d span with
  | .error e => some (.error e, 0)
  | .panicked m => some (.panicked m, 0)
  | .ok (some found, _) => some (.ok found, 0)
  | .ok (none, _) => check_impl_call_search tries sigs

/-- The vtable slot of an emitted virtual or generic-virtual call, if any. -/
def emitted_slot :
    RunResult (Option FinalizedEffects × List SpawnedJob) → Option Nat
  | .ok (some (.new _ (.VirtualCall i _ _)), _) => some i
  | .ok (some (.new _ (.GenericVirtualCall i _ _ _)), _) => some i
  | _ => none

/-- A store oracle mapping every function to its bare registered signature,
used by the concrete examples below. -/
def get_data0 : FunctionData → CodelessFinalizedFunction := fun g =>
  { generics := [], arguments := [], return_type := none, data := g,
    token := { id := 0 } }

/-- A `check_method` oracle rejecting every candidate. -/
def reject_all : CodelessFinalizedFunction →
    Option (FinalizedTypes × Span) → Except ParsingError FinalizedEffects :=
  fun _ _ => .error { span := { id := 0 }, message := "rejected" }

/-- A `check_method` oracle accepting exactly the method `Imp::m`. -/
def accept_imp : CodelessFinalizedFunction →
    Option (FinalizedTypes × Span) → Except ParsingError FinalizedEffects :=
  fun meth _ =>
    if meth.data.name = "Imp::m" then
      .ok (.new { id := 3 } FinalizedEffectType.NOP)
    else .error { span := { id := 3 }, message := "rejected" }

/-- A `parse_type` oracle that always succeeds with `VOID`. -/
def parse_void : UnparsedType → Except ParsingError FinalizedTypes :=
  fun _ => .ok VOID

/-- A concrete trait whose method list holds `Other::m` before the function
whose fully qualified name is exactly `m`. -/
def shapeTrait2 : StructData :=
  { modifiers := 0, name := "Shape",
    functions := [{ modifiers := 0, name := "Other::m" },
                  { modifiers := 0, name := "m" }] }

/-- A concrete receiver struct. -/
def circleData : StructData :=
  { modifiers := 0, name := "Circle", functions := [] }

/-- Checker data in which the requested method `m` appears as an exact match
at position 1 of the trait's method list, but the function at position 0
already matches `m` by its unqualified suffix. -/
def dC2x : ImplCheckerData :=
  { data := FinalizedTypes.Struct shapeTrait2,
    returning := none,
    method := "m",
    finding_return_type := FinalizedTypes.Struct circleData,
    finalized_effects :=
      [FinalizedEffects.new { id := 1 }
        (FinalizedEffectType.evaluated 0 (FinalizedTypes.Struct circleData))],
    of_type_sync := true,
    find_method := [{ modifiers := 0, name := "Circle::m" }],
    get_data := get_data0,
    parse_type := parse_void,
    check_method := reject_all }

/-- Checker data whose trait declares exactly the method `m`, matched
exactly at position 0. -/
def dC2w : ImplCheckerData :=
  { data := FinalizedTypes.Struct
      { modifiers := 0, name := "Shape",
        functions := [{ modifiers := 0, name := "m" }] },
    returning := none,
    method := "m",
    finding_return_type := FinalizedTypes.Struct circleData,
    finalized_effects :=
      [FinalizedEffects.new { id := 1 }
        (FinalizedEffectType.evaluated 0 (FinalizedTypes.Struct circleData))],
    of_type_sync := true,
    find_method := [],
    get_data := get_data0,
    parse_type := parse_void,
    check_method := reject_all }

/-- Checker data in which the unqualified name `area` matches
`Shape::area` and `find_method` reports two concrete candidates. -/
def dC6 : ImplCheckerData :=
  { data := FinalizedTypes.Struct
      { modifiers := 0, name := "Shape",
        functions := [{ modifiers := 0, name := "Shape::area" }] },
    returning := none,
    method := "area",
    finding_return_type := FinalizedTypes.Struct circleData,
    finalized_effects :=
      [FinalizedEffects.new { id := 1 }
        (FinalizedEffectType.evaluated 0 (FinalizedTypes.Struct circleData))],
    of_type_sync := true,
    find_method := [{ modifiers := 0, name := "Circle::area" },
                    { modifiers := 0, name := "Circle2::area" }],
    get_data := get_data0,
    parse_type := parse_void,
    check_method := reject_all }

/-- Checker data in which the unqualified name `area` matches
`Shape::area`, the single concrete candidate is `Circle::area`, and the
receiver's return type is the still-unresolved generic `T`. -/
def dC8 : ImplCheckerData :=
  { data := FinalizedTypes.Struct
      { modifiers := 0, name := "Shape",
        functions := [{ modifiers := 0, name := "Shape::area" }] },
    returning := none,
    method := "area",
    finding_return_type := FinalizedTypes.Generic "T" [],
    finalized_effects :=
      [FinalizedEffects.new { id := 1 }
        (FinalizedEffectType.evaluated 0 (FinalizedTypes.Generic "T" []))],
    of_type_sync := true,
    find_method := [{ modifiers := 0, name := "Circle::area" }],
    get_data := get_data0,
    parse_type := parse_void,
    check_method := reject_all }

/-- Checker data for the implementation-search examples: no return-type
annotation and a `check_method` oracle accepting exactly `Imp::m`. -/
def dC7 : ImplCheckerData :=
  { data := FinalizedTypes.Struct
      { modifiers := 0, name := "Drawable", functions := [] },
    returning := none,
    method := "m",
    finding_return_type := FinalizedTypes.Struct circleData,
    finalized_effects := [],
    of_type_sync := false,
    find_method := [],
    get_data := get_data0,
    parse_type := parse_void,
    check_method := accept_imp }

/-- Checker data whose search type does not statically match the trait, so
resolution falls through to implementation search. -/
def dC1 : ImplCheckerData :=
  { data := FinalizedTypes.Struct
      { modifiers := 0, name := "Drawable", functions := [] },
    returning := none,
    method := "",
    finding_return_type := FinalizedTypes.Struct circleData,
    finalized_effects := [],
    of_type_sync := false,
    find_method := [],
    get_data := get_data0,
    parse_type := parse_void,
    check_method := reject_all }

/-- A concrete function `main` declaring return type `i64`. -/
def cC4 : CodelessFinalizedFunction :=
  { generics := [], arguments := [],
    return_type := some (FinalizedTypes.Struct
      { modifiers := 8, name := "i64", functions := [] }),
    data := { modifiers := 0, name := "main" },
    token := { id := 4 } }

/-- A checked body that does not return on all paths. -/
def bodyC4 : FinalizedCodeBody :=
  { expressions := [], name := "body", returns := false }

/-- Looking up a freshly inserted entry yields it. -/
theorem lookupEntry_insertEntry {α : Type} (m : List (String × α))
    (k : String) (v : α) : lookupEntry (insertEntry m k v) k = some v := by
  simp [insertEntry, lookupEntry]

/-- Removing a key removes every entry under it. -/
theorem lookupEntry_eraseKey {α : Type} (m : List (String × α)) (k : String) :
    lookupEntry (eraseKey m k) k = none := by
  induction m with
  | nil => rfl
  | cons p rest ih =>
    obtain ⟨k2, v⟩ := p
    by_cases h : k2 = k
    · simp [eraseKey, h, ih]
    · simp [eraseKey, h, lookupEntry, ih]

/-- Claim C9: `verify_function_code` inserts the codeless signature into the
store's function map and resumes every waker pending under its name before any
body checking begins: whatever the body result, the resulting store holds the
signature with its waker entry cleared, and the event trace starts with the
wakes of exactly the previously pending wakers followed by the insertion,
before any `startedBodyCheck` event. -/
theorem verify_function_code_registers_signature_first
    (st : FunctionStore) (c : CodelessFinalizedFunction)
    (bodyResult : Except ParsingError FinalizedCodeBody) :
    lookupEntry (verify_function_code st c bodyResult).2.1.data c.data.name =
      some c ∧
    lookupEntry (verify_function_code st c bodyResult).2.1.wakers c.data.name =
      none ∧
    ∃ rest, (verify_function_code st c bodyResult).2.2 =
      (st.pendingWakers c.data.name).map FnEvent.wokeWaker ++
        FnEvent.insertedFunction c.data.name :: rest := by
  unfold verify_function_code
  by_cases h : (is_modifier c.data.modifiers Modifier.Internal ||
      is_modifier c.data.modifiers Modifier.ExternM) = true
  · simp only [h, if_true]
    exact ⟨lookupEntry_insertEntry st.data c.data.name c,
      lookupEntry_eraseKey st.wakers c.data.name, [], by simp⟩
  · simp only [h, if_false, Bool.not_eq_true] at h ⊢
    simp only [h, Bool.false_eq_true, if_false]
    exact ⟨lookupEntry_insertEntry st.data c.data.name c,
      lookupEntry_eraseKey st.wakers c.data.name, [FnEvent.startedBodyCheck],
      by simp⟩

/-- Claim C4: for a function whose body is actually checked (neither internal
nor extern) and does not return on all paths, `verify_function_code`
synthesizes an implicit empty return when no return type is declared; with a
declared return type it returns exactly one incomplete-return error unless the
function carries the `Trait` modifier, in which case no error is produced. -/
theorem verify_function_code_incomplete_return
    (st : FunctionStore) (c : CodelessFinalizedFunction)
    (code : FinalizedCodeBody)
    (hint : is_modifier c.data.modifiers Modifier.Internal = false)
    (hext : is_modifier c.data.modifiers Modifier.ExternM = false)
    (hnoret : code.returns = false) :
    (c.return_type = none →
      (verify_function_code st c (.ok code)).1 = .ok (c.add_code { code with
        expressions := code.expressions ++
          [{ expression_type := ExpressionType.Return { id := 0 },
             effect := FinalizedEffects.NOP }] })) ∧
    (∀ rt, c.return_type = some rt →
      is_modifier c.data.modifiers Modifier.Trait = false →
      (verify_function_code st c (.ok code)).1 = .error (c.token.make_error
        ("Function " ++ c.data.name ++ " returns void instead of a " ++
          rt.display ++ "!"))) ∧
    (∀ rt, c.return_type = some rt →
      is_modifier c.data.modifiers Modifier.Trait = true →
      (verify_function_code st c (.ok code)).1 = .ok (c.add_code code)) := by
  refine ⟨?_, ?_, ?_⟩
  · intro hnone
    simp [verify_function_code, hint, hext, check_body_outcome, hnoret, hnone]
  · intro rt hsome htrait
    simp [verify_function_code, hint, hext, check_body_outcome, hnoret, hsome,
      htrait]
  · intro rt hsome htrait
    simp [verify_function_code, hint, hext, check_body_outcome, hnoret, hsome,
      htrait]

/-- Witness for C4 at a concrete function `main` declaring `i64` whose body
does not return. -/
theorem verify_function_code_incomplete_return_witness :
    is_modifier cC4.data.modifiers Modifier.Internal = false ∧
    bodyC4.returns = false ∧
    (verify_function_code { data := [], wakers := [] } cC4 (.ok bodyC4)).1 =
      .error (Span.make_error { id := 4 }
        "Function main returns void instead of a i64!") := by
  refine ⟨by decide, rfl, ?_⟩
  exact (verify_function_code_incomplete_return { data := [], wakers := [] }
    cC4 bodyC4 (by decide) (by decide) rfl).2.1
    (FinalizedTypes.Struct { modifiers := 8, name := "i64", functions := [] })
    rfl (by decide)

/-- Claim C10: each `TypesChecker` entry point, on a verifier error, appends
the error to the shared error list and returns a placeholder whose declaration
data carries the empty string as its name and whose generics, fields and
arguments are empty; the entry points are total, so no error reaches their
caller. -/
theorem types_checker_error_placeholders (syn : SyntaxData)
    (e : ParsingError) :
    (TypesChecker.verify_func syn (.error e)).1.errors = syn.errors ++ [e] ∧
    (TypesChecker.verify_func syn (.error e)).2.1.data.name = "" ∧
    (TypesChecker.verify_func syn (.error e)).2.1.generics = [] ∧
    (TypesChecker.verify_func syn (.error e)).2.1.arguments = [] ∧
    (TypesChecker.verify_code syn (.error e)).1.errors = syn.errors ++ [e] ∧
    (TypesChecker.verify_code syn (.error e)).2.data.name = "" ∧
    (TypesChecker.verify_code syn (.error e)).2.generics = [] ∧
    (TypesChecker.verify_code syn (.error e)).2.fields = [] ∧
    (TypesChecker.verify_struct syn (.error e)).1.errors = syn.errors ++ [e] ∧
    (TypesChecker.verify_struct syn (.error e)).2.data.name = "" ∧
    (TypesChecker.verify_struct syn (.error e)).2.generics = [] ∧
    (TypesChecker.verify_struct syn (.error e)).2.fields = [] :=
  ⟨rfl, rfl, rfl, rfl, rfl, rfl, rfl, rfl, rfl, rfl, rfl, rfl⟩

/-- Reaching an exact match: when position `j` of the scanned list holds a
function whose name equals the requested method, and no earlier function
matches the method exactly or by its unqualified suffix, the scan emits a
`VirtualCall` at slot `i + j`. -/
theorem check_virtual_inner_exact (d : ImplCheckerData) (token : Span) :
    ∀ (fs : List FunctionData) (i j : Nat) (f : FunctionData),
      fs.get? j = some f → f.name = d.method →
      (∀ k, k < j → ∀ g, fs.get? k = some g →
        g.name ≠ d.method ∧ suffix_name g.name ≠ d.method) →
      check_virtual_type_inner d token i fs =
        .ok (some (.new token (.VirtualCall (i + j) (d.get_data f)
          d.finalized_effects)), []) := by
  intro fs
  induction fs with
  | nil => intro i j f hj; simp [List.get?] at hj
  | cons hd tl ih =>
    intro i j f hj hname hbefore
    cases j with
    | zero =>
      have hf : hd = f := Option.some.inj hj
      subst hf
      simp [check_virtual_type_inner, hname]
    | succ j =>
      have hhd := hbefore 0 (Nat.succ_pos j) hd rfl
      have harith : i + (j + 1) = (i + 1) + j := by omega
      rw [harith]
      have htail := ih (i + 1) j f hj hname
        (fun k hk g hg => hbefore (k + 1) (Nat.succ_lt_succ hk) g hg)
      simpa [check_virtual_type_inner, hhd.1, hhd.2] using htail

/-- Reaching a suffix match: when position `j` of the scanned list holds the
first function matching the requested method, and it matches only by its
unqualified suffix, the scan enters the generic branch at slot `i + j`. -/
theorem check_virtual_inner_suffix (d : ImplCheckerData) (token : Span) :
    ∀ (fs : List FunctionData) (i j : Nat) (f : FunctionData),
      fs.get? j = some f → f.name ≠ d.method → suffix_name f.name = d.method →
      (∀ k, k < j → ∀ g, fs.get? k = some g →
        g.name ≠ d.method ∧ suffix_name g.name ≠ d.method) →
      check_virtual_type_inner d token i fs =
        check_virtual_generic d token (i + j) f := by
  intro fs
  induction fs with
  | nil => intro i j f hj; simp [List.get?] at hj
  | cons hd tl ih =>
    intro i j f hj hne hsuf hbefore
    cases j with
    | zero =>
      have hf : hd = f := Option.some.inj hj
      subst hf
      simp [check_virtual_type_inner, hne, hsuf]
    | succ j =>
      have hhd := hbefore 0 (Nat.succ_pos j) hd rfl
      have harith : i + (j + 1) = (i + 1) + j := by omega
      rw [harith]
      have htail := ih (i + 1) j f hj hne hsuf
        (fun k hk g hg => hbefore (k + 1) (Nat.succ_lt_succ hk) g hg)
      simpa [check_virtual_type_inner, hhd.1, hhd.2] using htail

/-- Claim C2 counterexample: in `dC2x` the searched trait's method list holds
a function whose fully qualified name exactly equals the requested method `m`
at position 1, and the receiver's search type statically matches the trait,
yet `check_virtual_type` emits a `VirtualCall` at slot 0 — the position of the
earlier function `Other::m`, which matches `m` only by its unqualified
suffix — referencing the degenericization target `Circle::m`, not the
exact-match function. -/
theorem check_virtual_type_exact_match_preempted :
    dC2x.of_type_sync = true ∧
    dC2x.data.inner_struct.functions.get? 1 =
      some { modifiers := 0, name := "m" } ∧
    dC2x.method = "m" ∧
    check_virtual_type dC2x { id := 9 } =
      .ok (some (.new { id := 9 }
          (.VirtualCall 0 (get_data0 { modifiers := 0, name := "Circle::m" })
            dC2x.finalized_effects)),
        [{ name := "Circle::m",
           target := { modifiers := 0, name := "Circle::m" },
           base := { modifiers := 0, name := "Other::m" } }]) ∧
    emitted_slot (check_virtual_type dC2x { id := 9 }) = some 0 ∧
    some 0 ≠ some 1 :=
  ⟨rfl, rfl, rfl, rfl, rfl, by decide⟩

/-- Claim C2 (amended): for every implementation call whose receiver's search
type statically matches the searched trait, whose trait's method list holds at
position `j` a function whose fully qualified name equals the requested method
name, and in which no earlier function of the list matches the requested name
exactly or by its unqualified suffix, `check_virtual_type` emits a
`VirtualCall` whose slot index is `j` — that function's 0-based position —
with the evaluated argument effects attached and no job spawned. -/
theorem check_virtual_type_exact_match_slot (d : ImplCheckerData)
    (token : Span) (j : Nat) (f : FunctionData)
    (hof : d.of_type_sync = true)
    (hj : d.data.inner_struct.functions.get? j = some f)
    (hname : f.name = d.method)
    (hbefore : ∀ k, k < j → ∀ g, d.data.inner_struct.functions.get? k = some g →
      g.name ≠ d.method ∧ suffix_name g.name ≠ d.method) :
    check_virtual_type d token =
      .ok (some (.new token (.VirtualCall j (d.get_data f)
        d.finalized_effects)), []) := by
  have h := check_virtual_inner_exact d token d.data.inner_struct.functions
    0 j f hj hname hbefore
  simpa [check_virtual_type, hof] using h

/-- Witness for the amended C2 at a trait declaring exactly `m` at slot 0. -/
theorem check_virtual_type_exact_match_slot_witness :
    dC2w.of_type_sync = true ∧
    dC2w.data.inner_struct.functions.get? 0 =
      some { modifiers := 0, name := "m" } ∧
    check_virtual_type dC2w { id := 2 } =
      .ok (some (.new { id := 2 }
        (.VirtualCall 0 (get_data0 { modifiers := 0, name := "m" })
          dC2w.finalized_effects)), []) := by
  refine ⟨rfl, rfl, ?_⟩
  exact check_virtual_type_exact_match_slot dC2w { id := 2 } 0
    { modifiers := 0, name := "m" } rfl rfl rfl
    (fun k hk g hg => absurd hk (Nat.not_lt_zero k))

/-- Claim C6: when virtual dispatch first matches a trait method only by its
unqualified name, more than one concrete candidate yields exactly one
ambiguous-function error and no finalized call, and zero candidates yields an
unknown-function error. -/
theorem check_virtual_type_ambiguous_or_unknown (d : ImplCheckerData)
    (token : Span) (j : Nat) (f : FunctionData)
    (hof : d.of_type_sync = true)
    (hj : d.data.inner_struct.functions.get? j = some f)
    (hne : f.name ≠ d.method)
    (hsuf : suffix_name f.name = d.method)
    (hbefore : ∀ k, k < j → ∀ g, d.data.inner_struct.functions.get? k = some g →
      g.name ≠ d.method ∧ suffix_name g.name ≠ d.method) :
    (1 < d.find_method.length →
      check_virtual_type d token =
        .error (token.make_error "Ambiguous function!")) ∧
    (d.find_method = [] →
      check_virtual_type d token =
        .error (token.make_error "Unknown function!")) := by
  have h := check_virtual_inner_suffix d token d.data.inner_struct.functions
    0 j f hj hne hsuf hbefore
  have hct : check_virtual_type d token = check_virtual_generic d token j f := by
    simpa [check_virtual_type, hof] using h
  constructor
  · intro hlen
    rw [hct]
    simp [check_virtual_generic, hlen]
  · intro hempty
    rw [hct]
    simp [check_virtual_generic, hempty]

/-- Witness for C6 with two concrete candidates for the unqualified `area`. -/
theorem check_virtual_type_ambiguous_or_unknown_witness :
    1 < dC6.find_method.length ∧
    check_virtual_type dC6 { id := 6 } =
      .error (Span.make_error { id := 6 } "Ambiguous function!") := by
  refine ⟨by decide, ?_⟩
  exact (check_virtual_type_ambiguous_or_unknown dC6 { id := 6 } 0
    { modifiers := 0, name := "Shape::area" } rfl rfl (by decide) rfl
    (fun k hk g hg => absurd hk (Nat.not_lt_zero k))).1 (by decide)

/-- Claim C8: in the unqualified-name branch, when the first finalized effect's
(the receiver's) return type is still an unresolved generic,
`check_virtual_type` emits a `GenericVirtualCall` carrying the slot index, the
resolved target and the trait's function, instead of a fixed `VirtualCall`,
and spawns no degenericization job. -/
theorem check_virtual_type_generic_receiver (d : ImplCheckerData)
    (token : Span) (j : Nat) (f tgt : FunctionData)
    (first : FinalizedEffects) (rest : List FinalizedEffects)
    (hof : d.of_type_sync = true)
    (hj : d.data.inner_struct.functions.get? j = some f)
    (hne : f.name ≠ d.method)
    (hsuf : suffix_name f.name = d.method)
    (hbefore : ∀ k, k < j → ∀ g, d.data.inner_struct.functions.get? k = some g →
      g.name ≠ d.method ∧ suffix_name g.name ≠ d.method)
    (htgt : d.find_method = [tgt])
    (heff : d.finalized_effects = first :: rest)
    (hgen : (get_return first.types).is_generic = true) :
    check_virtual_type d token =
      .ok (some (.new token (.GenericVirtualCall j tgt (d.get_data f)
        d.finalized_effects)), []) := by
  have h := check_virtual_inner_suffix d token d.data.inner_struct.functions
    0 j f hj hne hsuf hbefore
  have hct : check_virtual_type d token = check_virtual_generic d token j f := by
    simpa [check_virtual_type, hof] using h
  rw [hct]
  simp [check_virtual_generic, htgt, heff, hgen]

/-- Witness for C8 at a receiver whose return type is the generic `T`. -/
theorem check_virtual_type_generic_receiver_witness :
    (get_return (FinalizedEffectType.evaluated 0
      (FinalizedTypes.Generic "T" []))).is_generic = true ∧
    check_virtual_type dC8 { id := 8 } =
      .ok (some (.new { id := 8 }
        (.GenericVirtualCall 0 { modifiers := 0, name := "Circle::area" }
          (get_data0 { modifiers := 0, name := "Shape::area" })
          dC8.finalized_effects)), []) := by
  refine ⟨rfl, ?_⟩
  exact check_virtual_type_generic_receiver dC8 { id := 8 } 0
    { modifiers := 0, name := "Shape::area" }
    { modifiers := 0, name := "Circle::area" }
    (.new { id := 1 } (.evaluated 0 (.Generic "T" []))) []
    rfl rfl (by decide) rfl
    (fun k hk g hg => absurd hk (Nat.not_lt_zero k)) rfl rfl rfl

/-- Claim C7: provided the explicit return annotation (when present)
re-finalizes successfully, `try_get_impl` returns without error the first
candidate — scanned in order, considering those whose unqualified name matches
the requested method, or every candidate when the method name is empty — whose
effects type-check through `check_method`; failing candidates are silently
discarded (the result is `ok`, never an error and in particular never an
ambiguity error on this path). -/
theorem try_get_impl_first_match_wins (d : ImplCheckerData) (span : Span)
    (r : Option (FinalizedTypes × Span))
    (hret : resolve_returning d span = .ok r) :
    ∀ result : List FunctionData,
      try_get_impl d result span = .ok (first_match_spec d r result) := by
  intro result
  induction result with
  | nil => rfl
  | cons temp rest ih =>
    by_cases hc : (suffix_name temp.name = d.method ∨ d.method = "")
    · simp only [try_get_impl, first_match_spec, if_pos hc, hret]
      cases hm : d.check_method (d.get_data temp) r with
      | ok found => simp
      | error e => simpa using ih
    · simp only [try_get_impl, first_match_spec, if_neg hc]
      exact ih

/-- Witness for C7: the first candidate `Bad::m` is rejected and silently
skipped, the second candidate `Imp::m` type-checks and wins. -/
theorem try_get_impl_first_match_wins_witness :
    resolve_returning dC7 { id := 3 } = .ok none ∧
    try_get_impl dC7 [{ modifiers := 0, name := "Bad::m" },
        { modifiers := 0, name := "Imp::m" }] { id := 3 } =
      .ok (some (.new { id := 3 } FinalizedEffectType.NOP)) := by
  refine ⟨rfl, ?_⟩
  exact (try_get_impl_first_match_wins dC7 { id := 3 } none rfl
    [{ modifiers := 0, name := "Bad::m" },
     { modifiers := 0, name := "Imp::m" }]).trans rfl

/-- Under an eventually-true liveness schedule the retry loop exits. -/
theorem impl_search_loop_isSome
    (tries : Nat → Except ParsingError (Option FinalizedEffects)) :
    ∀ (sigs : List Bool) (k : Nat) (out : Option FinalizedEffects),
      true ∈ sigs → (impl_search_loop tries sigs k out).isSome = true := by
  intro sigs
  induction sigs with
  | nil => intro k out h; cases h
  | cons s rest ih =>
    intro k out h
    cases out with
    | some v => simp [impl_search_loop]
    | none =>
      cases s with
      | true => simp [impl_search_loop]
      | false =>
        have hrest : true ∈ rest := by
          cases h with
          | tail _ h2 => exact h2
        simp only [impl_search_loop, Bool.false_eq_true, if_false]
        cases htr : tries k with
        | error e => simp
        | ok r => simpa using ih (k + 1) r hrest

/-- When every retry finds nothing, the loop exits exactly at the first true
signal reading, having made one `try_get_impl` call per false reading. -/
theorem impl_search_loop_all_none
    (tries : Nat → Except ParsingError (Option FinalizedEffects))
    (ht : ∀ k, tries k = .ok none) :
    ∀ (sigs : List Bool) (k : Nat), true ∈ sigs →
      impl_search_loop tries sigs k none =
        some (.exited none (k + sigs.findIdx (fun b => b))) := by
  intro sigs
  induction sigs with
  | nil => intro k h; cases h
  | cons s rest ih =>
    intro k h
    cases s with
    | true => simp [impl_search_loop, List.findIdx_cons]
    | false =>
      have hrest : true ∈ rest := by
        cases h with
        | tail _ h2 => exact h2
      have harith : (k + 1) + rest.findIdx (fun b => b) =
          k + ((false :: rest).findIdx (fun b => b)) := by
        simp [List.findIdx_cons]; omega
      calc impl_search_loop tries (false :: rest) k none
          = impl_search_loop tries rest (k + 1) none := by
            simp [impl_search_loop, ht k]
        _ = some (.exited none ((k + 1) + rest.findIdx (fun b => b))) :=
            ih (k + 1) hrest
        _ = some (.exited none (k + ((false :: rest).findIdx (fun b => b)))) := by
            rw [harith]

/-- Claim C5: the implementation-search loop of `check_impl_call` terminates
whenever the `finished_impls()` liveness signal eventually reads true, and it
retries `try_get_impl` only while the signal reads false: when no retry ever
finds a match, the loop exits at the first true reading and exactly one
additional retry is made before giving up, for `findIdx + 1` calls in all. -/
theorem check_impl_call_search_liveness_bounded
    (tries : Nat → Except ParsingError (Option FinalizedEffects))
    (sigs : List Bool) (hlive : true ∈ sigs) :
    (check_impl_call_search tries sigs).isSome = true ∧
    ((∀ k, tries k = .ok none) →
      check_impl_call_search tries sigs =
        some (.panicked "Failed", sigs.findIdx (fun b => b) + 1)) := by
  constructor
  · have h := impl_search_loop_isSome tries sigs 0 none hlive
    unfold check_impl_call_search
    cases hl : impl_search_loop tries sigs 0 none with
    | none => rw [hl] at h; simp at h
    | some ex =>
      cases ex with
      | errored e k => simp
      | exited out k =>
        cases out with
        | some v => simp
        | none =>
          cases htr : tries k with
          | error e => simp [htr]
          | ok r => cases r <;> simp [htr]
  · intro ht
    have h := impl_search_loop_all_none tries ht sigs 0 hlive
    unfold check_impl_call_search
    rw [h]
    simp [ht]

/-- Witness for C5: with the signal reading false then true and every retry
finding nothing, the search terminates after exactly two calls — one while the
signal was false and one final retry after it fired. -/
theorem check_impl_call_search_liveness_bounded_witness :
    (check_impl_call_search (fun _ => .ok none) [false, true]).isSome = true ∧
    check_impl_call_search (fun _ => .ok none) [false, true] =
      some (.panicked "Failed", 2) := by
  have h := check_impl_call_search_liveness_bounded (fun _ => .ok none)
    [false, true] (by decide)
  exact ⟨h.1, h.2 (fun _ => rfl)⟩

/-- Claim C1 (code bug): when candidate implementations are produced but none
ever type-checks — `try_get_impl` keeps yielding `Ok(None)` — `check_impl_call`
does not return the "Nothing implements the given trait!" diagnostic after the
liveness-bounded retry: it unwinds with `panic!` (check_impl_call.rs, line
85), contrary to the failure policy.  Evaluated at a concrete call whose
liveness signal is already set. -/
theorem check_impl_call_panics_when_no_candidate_typechecks :
    check_impl_call dC1 { id := 11 } (fun _ => .ok none) [true] =
      some (.panicked "Failed", 1) := rfl

end Raven
